import Mathlib

/-!
Verification development for the momentum-shift analytics core
(`server/momentumAlgorithm.js` and `src/utils/narrativeEngine.ts`).

The JavaScript/TypeScript sources are shallowly embedded as executable
Lean definitions:

* JS numbers are modelled as `ℤ` where the code only ever produces
  integers (raw impacts, scores, periods) and as `ℚ` where division or
  decay multipliers appear (momentum values, decay factors).
* JS objects with optional fields become structures with `Option`
  fields.  JS string truthiness (`!x` is true for a missing field *and*
  for the empty string) is modelled by the `jsOr` helper below.
* `Array.prototype.sort` with the wallclock comparator is modelled by a
  stable insertion sort on the integer timestamp key.  Plays whose
  `wallclock` is missing compare through `NaN` in JS, where the sort
  order is implementation defined; the embedding gives them key `0`.
  No claim depends on the order of such plays.
* `x.toFixed(2)` / `toFixed(0)` round to 2 / 0 decimals.  JS rounds
  ties away from zero while Mathlib's `round` rounds ties up; the two
  agree on every value this program produces at the call sites
  (momenta are multiples of 1/20, and `toFixed(0)` is applied to a
  non-negative quantity).
-/

/-- JS `a || b` for an optional string field: a missing field and the
empty string are both falsy. -/
def jsOr (o : Option String) (d : String) : String :=
  match o with
  | some s => if s.isEmpty then d else s
  | none => d

/-- JS `a || b` for a plain string (empty string is falsy). -/
def jsOrS (s d : String) : String :=
  if s.isEmpty then d else s

/-- JS `a || b` for an optional integer field: a missing field and `0`
are both falsy. -/
def intOr (o : Option ℤ) (d : ℤ) : ℤ :=
  match o with
  | some v => if v = 0 then d else v
  | none => d

/-- JS `s.toLowerCase()`, as the character list of the result.
(`String.toLower` itself is defined by well-founded recursion on byte
positions, which blocks kernel evaluation, so the embedding lowercases
the character list directly — the same per-character map.) -/
def lowerChars (s : String) : List Char :=
  s.data.map Char.toLower

/-- JS `s.includes(pat)`: `pat` occurs as a contiguous substring of `s`
(both given as character lists).  At every call site the code has
already lowercased `s` and uses a lowercase literal pattern. -/
def strIncludes (s pat : List Char) : Bool :=
  decide (pat <:+: s)

/-- `[a, b, c].join(sep)`, tail part (separator before each later item). -/
def joinWithTail (sep : String) : List String → String
  | [] => ""
  | s :: rest => sep ++ s ++ joinWithTail sep rest

/-- `[a, b, c].join(sep)` from JS. -/
def joinWith (sep : String) : List String → String
  | [] => ""
  | s :: rest => s ++ joinWithTail sep rest

/--
One ESPN play object, restricted to the fields the embedded code reads.

* `text` — `play.text` (`none` = field missing; a present empty string
  is handled by the explicit `isEmpty` tests, mirroring JS truthiness).
* `type` — the `play.type` field.  The outer `Option` is the JS
  truthiness of `play.type` itself; the inner `Option String` is its
  `.text` subfield (`none` when `play.type` is a bare string or has no
  `.text`, as in `type: "turnover"`).
* `scoringPlay`, `scoreValue` — as in the source.
* `wallclock` — the play's wallclock instant, already parsed to epoch
  milliseconds (the code only ever uses `new Date(wallclock).getTime()`).
* `team` — `play.team.id`; `none` when `play.team` or `play.team.id`
  is missing or empty (all JS-falsy, and the code only reads the id).
* `clock` — the resolved `play.clock?.displayValue || play.clock?.value`
  string (`none` when both are missing).
* `sequenceNumber`, `period`, `homeScore`, `awayScore` — as in the source.
-/
structure PlayEvent where
  text : Option String := none
  type : Option (Option String) := none
  scoringPlay : Bool := false
  scoreValue : Option ℤ := none
  wallclock : Option ℤ := none
  team : Option String := none
  sequenceNumber : Option String := none
  clock : Option String := none
  period : Option ℤ := none
  homeScore : Option ℤ := none
  awayScore : Option ℤ := none
  deriving DecidableEq, Repr

/-- `calculatePlayImpact` from `server/momentumAlgorithm.js`: additive,
case-insensitive substring rules over the play text and type text.
Returns `0` when `play.text` or `play.type` is falsy. -/
def calculatePlayImpact (p : PlayEvent) : ℤ :=
  match p.text, p.type with
  | some txt, some ty =>
    if txt.isEmpty then 0
    else
      let text := lowerChars txt
      let typeText := lowerChars (ty.getD "")
      (if p.scoringPlay then (p.scoreValue.getD 0) * 2 else 0)
      + (if strIncludes typeText "turnover".data || strIncludes text "turnover".data then -5 else 0)
      + (if strIncludes typeText "fast break".data || strIncludes text "fast break".data then 3 else 0)
      + (if strIncludes typeText "dunk".data || strIncludes text "dunk".data
            || strIncludes text "alley oop".data || strIncludes text "alley-oop".data then 2 else 0)
      + (if strIncludes text "and 1".data || strIncludes text "and-1".data
            || (p.scoringPlay && decide (0 < p.scoreValue.getD 0) && strIncludes text "foul".data) then 2 else 0)
      + (if strIncludes typeText "block".data || strIncludes text "block".data then 4 else 0)
      + (if strIncludes typeText "steal".data || strIncludes text "steal".data then 4 else 0)
  | _, _ => 0

/-- The spec example `{text:"three point jumper", scoringPlay:true, scoreValue:3}`,
as written: it has no `type` field. -/
def c2ex1 : PlayEvent :=
  { text := some "three point jumper", scoringPlay := true, scoreValue := some 3 }

/-- The spec example `{text:"turnover bad pass", type:"turnover"}`: `type` is a
bare (truthy) string, so `type.text` is absent. -/
def c2ex2 : PlayEvent :=
  { text := some "turnover bad pass", type := some none }

/-- The spec example `{text:"fast break dunk", scoringPlay:true, scoreValue:2}`,
as written: it has no `type` field. -/
def c2ex3 : PlayEvent :=
  { text := some "fast break dunk", scoringPlay := true, scoreValue := some 2 }

/-- `c2ex1` with a truthy `type` field added. -/
def c2ex1typed : PlayEvent := { c2ex1 with type := some none }

/-- `c2ex3` with a truthy `type` field added. -/
def c2ex3typed : PlayEvent := { c2ex3 with type := some none }

/-- `calculateTimeDecay` from `server/momentumAlgorithm.js`: linear wall-clock
decay from 1 at age 0 to 0 at `maxWindowMinutes`, with 0 outside `[0, max)`.
`playTime`/`currentTime` are epoch milliseconds (`Date.getTime()`). -/
def calculateTimeDecay (playTime currentTime : ℤ) (maxWindowMinutes : ℚ) : ℚ :=
  let diffMinutes : ℚ := ((currentTime - playTime : ℤ) : ℚ) / (1000 * 60)
  if maxWindowMinutes ≤ diffMinutes ∨ diffMinutes < 0 then 0
  else 1 - diffMinutes / maxWindowMinutes

/-- The position-based decay multiplier of `calculateMomentumSeries`
(`decayWindow = 10`): plays more than 10 positions back decay linearly,
floored at `0.3`.  `playsBack` is `sortedPlays.length - i - 1`. -/
def decayMultiplier (playsBack : ℕ) : ℚ :=
  if 10 < playsBack then max (3 / 10) (1 - ((playsBack : ℚ) - 10) / (10 * 2))
  else 1

/-- `Math.max(-momentumMax, Math.min(momentumMax, x))` with `momentumMax = 100`. -/
def clamp (x : ℚ) : ℚ :=
  max (-100) (min 100 x)

/-- `parseFloat(x.toFixed(2))`: round to two decimal places.  (JS rounds ties
away from zero, `round` rounds ties up; every momentum the fold produces is a
multiple of 1/20, where both rules are the identity.) -/
def roundTo2 (x : ℚ) : ℚ :=
  ((round (x * 100) : ℤ) : ℚ) / 100

/-- The sort key of the play comparator
`new Date(a.wallclock).getTime() - new Date(b.wallclock).getTime()`.
A missing `wallclock` gives `NaN` in JS, where the sort order is
implementation defined; the embedding fixes its key to `0`. -/
def playKey (p : PlayEvent) : ℤ :=
  p.wallclock.getD 0

/-- `[...plays].sort((a, b) => ...)`: stable sort ascending by wallclock. -/
def sortPlays (plays : List PlayEvent) : List PlayEvent :=
  List.insertionSort (fun a b => playKey a ≤ playKey b) plays

/-- One element of the returned `history` array. -/
structure MomentumSample where
  sequenceNumber : String := ""
  clock : String := ""
  period : ℤ := 1
  text : String := ""
  teamId : String := ""
  homeScore : ℤ := 0
  awayScore : ℤ := 0
  momentum : ℚ := 0
  rawImpact : ℤ := 0
  type : String := ""
  deriving DecidableEq, Repr

/-- The `history.push({...})` record of `calculateMomentumSeries`, built from
the play at index `i`, the clamped running momentum `m`, and the raw impact. -/
def mkSample (p : PlayEvent) (i : ℕ) (m : ℚ) (raw : ℤ) : MomentumSample :=
  { sequenceNumber := jsOr p.sequenceNumber (toString i)
    clock := jsOr p.clock ""
    period := intOr p.period 1
    text := jsOr p.text ""
    teamId := p.team.getD ""
    homeScore := p.homeScore.getD 0
    awayScore := p.awayScore.getD 0
    momentum := roundTo2 m
    rawImpact := raw
    type := jsOr (p.type.bind id) "" }

/-- The main loop of `calculateMomentumSeries`: `n` is `sortedPlays.length`,
`i` the current index, `cur` the running momentum (clamped but unrounded —
only the pushed copy goes through `toFixed(2)`).  Plays lacking `wallclock`
or `team.id` are skipped by `continue`. -/
def momentumFold (home away : String) (n : ℕ) :
    List PlayEvent → ℕ → ℚ → List MomentumSample
  | [], _, _ => []
  | p :: rest, i, cur =>
    if p.wallclock.isSome && p.team.isSome then
      let raw := calculatePlayImpact p
      let fi := (raw : ℚ) * decayMultiplier (n - i - 1)
      let cur2 :=
        if p.team = some home then cur + fi
        else if p.team = some away then cur - fi
        else cur
      let cur3 := clamp cur2
      mkSample p i cur3 raw :: momentumFold home away n rest (i + 1) cur3
    else momentumFold home away n rest (i + 1) cur

/-- `Math.max(...l)` for a momentum list (junk value `0` on `[]`, which the
code guards against). -/
def listMax : List ℚ → ℚ
  | [] => 0
  | x :: xs => xs.foldl max x

/-- `Math.min(...l)` for a momentum list. -/
def listMin : List ℚ → ℚ
  | [] => 0
  | x :: xs => xs.foldl min x

/-- `maxMomentum - minMomentum` over the pushed (rounded) momenta. -/
def rangeOf (history : List MomentumSample) : ℚ :=
  listMax (history.map (fun h => h.momentum))
    - listMin (history.map (fun h => h.momentum))

/-- The per-sample visibility rescale:
`h.momentum = Math.max(-100, Math.min(100, h.momentum * (20 / range)))`. -/
def scaleSample (range : ℚ) (s : MomentumSample) : MomentumSample :=
  { s with momentum := clamp (s.momentum * (20 / range)) }

/-- The post-pass normalization of `calculateMomentumSeries`: when the momentum
range is positive but below 20, scale every value by `20 / range` and re-clamp. -/
def rescalePass (history : List MomentumSample) : List MomentumSample :=
  if history.isEmpty then history
  else if 0 < rangeOf history ∧ rangeOf history < 20 then
    history.map (scaleSample (rangeOf history))
  else history

/-- `calculateMomentumSeries(plays, homeTeamId, awayTeamId)` from
`server/momentumAlgorithm.js` (the position-decay version): empty guard,
sort, fold, visibility rescale. -/
def calculateMomentumSeries (plays : List PlayEvent) (homeTeamId awayTeamId : String) :
    List MomentumSample :=
  if plays.isEmpty then []
  else
    let sortedPlays := sortPlays plays
    rescalePass (momentumFold homeTeamId awayTeamId sortedPlays.length sortedPlays 0 0)

/-- C2 counterexample: the spec's example values fail on the code.  The first
and third example objects have no `type` field, so the guard
`if (!play || !play.text || !play.type) return 0` yields `0`, not `6` and `11`. -/
theorem c2_examples_counterexample :
    ¬ (calculatePlayImpact c2ex1 = 6 ∧ calculatePlayImpact c2ex2 = -5 ∧
       calculatePlayImpact c2ex3 = 11) := by
  decide

/-- C2 (amended): the example objects as written return `0`, `-5`, `0`; with a
truthy `type` added, the first example returns `6` and the third returns `9`
(`2*scoreValue + 3` for the fast break `+ 2` for the dunk), not the spec's `11`. -/
theorem c2_examples_amended :
    calculatePlayImpact c2ex1 = 0 ∧ calculatePlayImpact c2ex2 = -5 ∧
    calculatePlayImpact c2ex3 = 0 ∧
    calculatePlayImpact c2ex1typed = 6 ∧ calculatePlayImpact c2ex3typed = 9 := by
  decide

/-- C3: under the position-based decay policy the multiplier is `1.0` within
the most recent 10 positions and `max(0.3, 1-(distanceBack-10)/20)` otherwise
(the two branch formulas agree at `distanceBack = 10`), hence always at least
`0.3` and never `0`. -/
theorem c3_decay_policy (d : ℕ) :
    decayMultiplier d = (if d < 10 then 1 else max (3 / 10) (1 - ((d : ℚ) - 10) / 20))
    ∧ (3 / 10 : ℚ) ≤ decayMultiplier d ∧ decayMultiplier d ≠ 0 := by
  have hle : (3 / 10 : ℚ) ≤ decayMultiplier d := by
    unfold decayMultiplier
    split
    · exact le_max_left _ _
    · norm_num
  refine ⟨?_, hle, ?_⟩
  · unfold decayMultiplier
    rcases lt_trichotomy d 10 with h | h | h
    · rw [if_neg (by omega), if_pos h]
    · subst h
      norm_num
    · rw [if_pos h, if_neg (by omega)]
      norm_num
  · intro h0
    rw [h0] at hle
    norm_num at hle

/-- C9: `calculateTimeDecay` always lands in `[0,1]`; it is `0` for plays at
least `maxWindowMinutes` old and for plays timestamped after the reference
time, and a play at the reference time gets full weight `1` (for a positive
window, as at both call sites where the window is 5). -/
theorem c9_time_decay (pt ct : ℤ) (w : ℚ) :
    (0 ≤ calculateTimeDecay pt ct w ∧ calculateTimeDecay pt ct w ≤ 1)
    ∧ (w ≤ ((ct - pt : ℤ) : ℚ) / (1000 * 60) → calculateTimeDecay pt ct w = 0)
    ∧ (ct < pt → calculateTimeDecay pt ct w = 0)
    ∧ (pt = ct → 0 < w → calculateTimeDecay pt ct w = 1) := by
  refine ⟨?_, ?_, ?_, ?_⟩
  · simp only [calculateTimeDecay]
    split
    · norm_num
    · next h =>
      push_neg at h
      obtain ⟨h1, h2⟩ := h
      have hw : 0 < w := lt_of_le_of_lt h2 h1
      constructor
      · have hd : ((ct - pt : ℤ) : ℚ) / (1000 * 60) / w ≤ 1 :=
          (div_le_one hw).mpr (le_of_lt h1)
        linarith
      · have hd : 0 ≤ ((ct - pt : ℤ) : ℚ) / (1000 * 60) / w :=
          div_nonneg h2 (le_of_lt hw)
        linarith
  · intro h
    simp only [calculateTimeDecay]
    rw [if_pos (Or.inl h)]
  · intro h
    simp only [calculateTimeDecay]
    have hlt : ((ct - pt : ℤ) : ℚ) < 0 := by
      have h2 : (ct - pt : ℤ) < 0 := by omega
      exact_mod_cast h2
    rw [if_pos (Or.inr (div_neg_of_neg_of_pos hlt (by norm_num)))]
  · intro h hw
    subst h
    simp only [calculateTimeDecay]
    rw [if_neg]
    · simp
    · push_neg
      constructor
      · simp
        linarith
      · simp

/-- C9 witness: concrete evaluations of the decay function at the 5-minute
window used by the callers. -/
theorem c9_time_decay_witness :
    calculateTimeDecay 0 0 5 = 1 ∧ calculateTimeDecay 0 300000 5 = 0
    ∧ calculateTimeDecay 1 0 5 = 0 ∧ 0 ≤ calculateTimeDecay 3 7 5 :=
  ⟨(c9_time_decay 0 0 5).2.2.2 rfl (by norm_num),
   (c9_time_decay 0 300000 5).2.1 (by norm_num),
   (c9_time_decay 1 0 5).2.2.1 (by decide),
   (c9_time_decay 3 7 5).1.1⟩

theorem clamp_lower (x : ℚ) : -100 ≤ clamp x :=
  le_max_left _ _

theorem clamp_upper (x : ℚ) : clamp x ≤ 100 :=
  max_le (by norm_num) (min_le_left _ _)

theorem round_mono_q {a b : ℚ} (h : a ≤ b) : round a ≤ round b := by
  rw [round_eq, round_eq]
  exact Int.floor_mono (by linarith)

theorem roundTo2_bounds {x : ℚ} (h1 : -100 ≤ x) (h2 : x ≤ 100) :
    -100 ≤ roundTo2 x ∧ roundTo2 x ≤ 100 := by
  unfold roundTo2
  have hu : round (x * 100) ≤ 10000 := by
    have hm := round_mono_q (show x * 100 ≤ ((10000 : ℤ) : ℚ) by push_cast; linarith)
    rwa [round_intCast] at hm
  have hl : (-10000 : ℤ) ≤ round (x * 100) := by
    have hm := round_mono_q (show ((-10000 : ℤ) : ℚ) ≤ x * 100 by push_cast; linarith)
    rwa [round_intCast] at hm
  constructor
  · rw [le_div_iff₀ (by norm_num : (0 : ℚ) < 100)]
    calc (-100 : ℚ) * 100 = ((-10000 : ℤ) : ℚ) := by norm_num
    _ ≤ _ := by exact_mod_cast hl
  · rw [div_le_iff₀ (by norm_num : (0 : ℚ) < 100)]
    calc ((round (x * 100) : ℤ) : ℚ) ≤ ((10000 : ℤ) : ℚ) := by exact_mod_cast hu
    _ = 100 * 100 := by norm_num

theorem momentumFold_bounds (home away : String) (n : ℕ) :
    ∀ (l : List PlayEvent) (i : ℕ) (cur : ℚ) (s : MomentumSample),
      s ∈ momentumFold home away n l i cur → -100 ≤ s.momentum ∧ s.momentum ≤ 100 := by
  intro l
  induction l with
  | nil =>
    intro i cur s hs
    simp [momentumFold] at hs
  | cons p rest ih =>
    intro i cur s hs
    by_cases hv : (p.wallclock.isSome && p.team.isSome) = true
    · simp only [momentumFold, if_pos hv, List.mem_cons] at hs
      rcases hs with rfl | hs
      · exact roundTo2_bounds (clamp_lower _) (clamp_upper _)
      · exact ih _ _ _ hs
    · simp only [momentumFold, if_neg hv] at hs
      exact ih _ _ _ hs

theorem rescalePass_mem {h : List MomentumSample} {s : MomentumSample}
    (hs : s ∈ rescalePass h) :
    s ∈ h ∨ ∃ s0 ∈ h, s = scaleSample (rangeOf h) s0 := by
  unfold rescalePass at hs
  split_ifs at hs
  · exact Or.inl hs
  · right
    rcases List.mem_map.mp hs with ⟨s0, hs0, heq⟩
    exact ⟨s0, hs0, heq.symm⟩
  · exact Or.inl hs

/-- C1: every sample of a momentum trace has its momentum in `[-100, 100]`,
both as emitted by the per-step fold (clamped after each decayed impact, then
rounded to two decimals for the pushed copy) and after the post-pass
visibility rescale in `calculateMomentumSeries` (which re-clamps). -/
theorem c1_clamp_invariant :
    (∀ (home away : String) (n : ℕ) (l : List PlayEvent) (i : ℕ) (cur : ℚ)
        (s : MomentumSample), s ∈ momentumFold home away n l i cur →
        -100 ≤ s.momentum ∧ s.momentum ≤ 100)
    ∧ (∀ (plays : List PlayEvent) (home away : String) (s : MomentumSample),
        s ∈ calculateMomentumSeries plays home away →
        -100 ≤ s.momentum ∧ s.momentum ≤ 100) := by
  refine ⟨fun home away n => momentumFold_bounds home away n, ?_⟩
  intro plays home away s hs
  unfold calculateMomentumSeries at hs
  split at hs
  · simp at hs
  · rcases rescalePass_mem hs with hmem | ⟨s0, _, rfl⟩
    · exact momentumFold_bounds _ _ _ _ _ _ _ hmem
    · exact ⟨clamp_lower _, clamp_upper _⟩

/-- A concrete one-play game: a home dunk at wallclock 0. -/
def c1plays : List PlayEvent :=
  [{ text := some "dunk", type := some (some ""), wallclock := some 0, team := some "H" }]

/-- The sample `calculateMomentumSeries c1plays "H" "A"` emits for that play. -/
def c1sample : MomentumSample :=
  { sequenceNumber := "0", clock := "", period := 1, text := "dunk", teamId := "H",
    homeScore := 0, awayScore := 0, momentum := 2, rawImpact := 2, type := "" }

theorem c1_trace_eval : calculateMomentumSeries c1plays "H" "A" = [c1sample] := by
  have himp : calculatePlayImpact
      { text := some "dunk", type := some (some ""), wallclock := some 0, team := some "H" } = 2 := by
    decide
  simp only [calculateMomentumSeries, sortPlays, List.insertionSort, c1plays,
    List.isEmpty_cons, momentumFold, himp, mkSample, jsOr, intOr, decayMultiplier]
  norm_num [rescalePass, rangeOf, listMax, listMin, clamp, roundTo2, round_eq, c1sample]
  exact ⟨by decide, by decide⟩

/-- C1 witness: the clamp invariant evaluated on a concrete one-play trace. -/
theorem c1_clamp_invariant_witness :
    -100 ≤ c1sample.momentum ∧ c1sample.momentum ≤ 100 :=
  c1_clamp_invariant.2 c1plays "H" "A" c1sample
    (by rw [c1_trace_eval]; exact List.mem_singleton_self _)

theorem clamp_mono {x y : ℚ} (h : x ≤ y) : clamp x ≤ clamp y :=
  max_le_max (le_refl _) (min_le_min (le_refl _) h)

theorem clamp_pos {x : ℚ} (h : 0 < x) : 0 < clamp x :=
  lt_of_lt_of_le (lt_min (by norm_num) h) (le_max_right _ _)

theorem clamp_neg {x : ℚ} (h : x < 0) : clamp x < 0 := by
  unfold clamp
  rw [min_eq_right (le_of_lt (lt_of_lt_of_le h (by norm_num)))]
  exact max_lt (by norm_num) h

theorem clamp_zero : clamp 0 = 0 := by
  unfold clamp
  rw [min_eq_right (by norm_num), max_eq_right (by norm_num)]

/-- C4: the visibility rescale multiplies every momentum by `20/range` and
re-clamps exactly when `0 < range < 20`, leaves the trace unchanged when the
range is `0` or at least `20`, and the per-sample transform preserves the sign
of every momentum and the relative (non-strict) order of any two momenta. -/
theorem c4_rescale_props (h : List MomentumSample) :
    ((0 < rangeOf h ∧ rangeOf h < 20) → rescalePass h = h.map (scaleSample (rangeOf h)))
    ∧ ((rangeOf h = 0 ∨ 20 ≤ rangeOf h) → rescalePass h = h)
    ∧ (∀ r : ℚ, 0 < r → ∀ s t : MomentumSample,
        (0 < s.momentum → 0 < (scaleSample r s).momentum)
        ∧ (s.momentum < 0 → (scaleSample r s).momentum < 0)
        ∧ (s.momentum = 0 → (scaleSample r s).momentum = 0)
        ∧ (s.momentum ≤ t.momentum →
            (scaleSample r s).momentum ≤ (scaleSample r t).momentum)) := by
  refine ⟨?_, ?_, ?_⟩
  · intro hc
    unfold rescalePass
    split_ifs with h1
    all_goals first
      | rfl
      | (rw [List.isEmpty_iff] at h1
         subst h1
         norm_num [rangeOf, listMax, listMin] at hc)
  · intro hd
    unfold rescalePass
    split_ifs with h1 h2
    · rfl
    · rcases hd with hd | hd
      · rw [hd] at h2
        exact absurd h2.1 (by norm_num)
      · exact absurd h2.2 (by linarith)
    · rfl
  · intro r hr s t
    have hk : 0 < 20 / r := by positivity
    refine ⟨?_, ?_, ?_, ?_⟩
    · intro hm
      exact clamp_pos (mul_pos hm hk)
    · intro hm
      exact clamp_neg (mul_neg_of_neg_of_pos hm hk)
    · intro hm
      show clamp (s.momentum * (20 / r)) = 0
      rw [hm, zero_mul, clamp_zero]
    · intro hst
      exact clamp_mono (mul_le_mul_of_nonneg_right hst (le_of_lt hk))

/-- A two-sample trace with momenta `0` and `5` (range `5`, so the rescale
triggers). -/
def c4trace : List MomentumSample :=
  [{ momentum := 0 }, { momentum := 5 }]

/-- C4 witness: on `c4trace` the rescale branch fires, and the transform keeps
a positive momentum positive. -/
theorem c4_rescale_props_witness :
    rescalePass c4trace = c4trace.map (scaleSample (rangeOf c4trace))
    ∧ 0 < (scaleSample (rangeOf c4trace) { momentum := 5 }).momentum := by
  have hr1 : 0 < rangeOf c4trace := by
    norm_num [c4trace, rangeOf, listMax, listMin]
  have hr2 : rangeOf c4trace < 20 := by
    norm_num [c4trace, rangeOf, listMax, listMin]
  exact ⟨(c4_rescale_props c4trace).1 ⟨hr1, hr2⟩,
    ((c4_rescale_props c4trace).2.2 (rangeOf c4trace) hr1
      { momentum := 5 } { momentum := 5 }).1 (by norm_num)⟩

/-- A play whose team id `"X"` matches neither home `"H"` nor away `"A"`. -/
def c5play : PlayEvent :=
  { text := some "dunk", type := some (some ""), wallclock := some 0, team := some "X" }

/-- The sample `calculateMomentumSeries [c5play] "H" "A"` emits for `c5play`:
unchanged momentum `0`, but carrying the unrecognized team id. -/
def c5sample : MomentumSample :=
  { sequenceNumber := "0", clock := "", period := 1, text := "dunk", teamId := "X",
    homeScore := 0, awayScore := 0, momentum := 0, rawImpact := 2, type := "" }

theorem c5_trace_eval : calculateMomentumSeries [c5play] "H" "A" = [c5sample] := by
  have himp : calculatePlayImpact
      { text := some "dunk", type := some (some ""), wallclock := some 0, team := some "X" } = 2 := by
    decide
  have hxh : ¬ (("X" : String) = "H") := by decide
  have hxa : ¬ (("X" : String) = "A") := by decide
  simp only [calculateMomentumSeries, sortPlays, List.insertionSort, c5play,
    List.isEmpty_cons, momentumFold, himp, mkSample, jsOr, intOr, decayMultiplier]
  norm_num [hxh, hxa, rescalePass, rangeOf, listMax, listMin, clamp, roundTo2, round_eq,
    c5sample]
  exact ⟨by decide, by decide⟩

/-- C5 counterexample: on a one-play list whose team id matches neither side,
the claim says no sample appears in the trace, but the trace has one sample,
carrying the unrecognized team id. -/
theorem c5_skip_counterexample :
    (calculateMomentumSeries [c5play] "H" "A").length = 1
    ∧ (calculateMomentumSeries [c5play] "H" "A").map (fun s => s.teamId) = ["X"] := by
  rw [c5_trace_eval]
  exact ⟨rfl, rfl⟩

/-- C5 (amended): a play with an unrecognized team id leaves the running
momentum unchanged (the loop only re-clamps it, a no-op on in-range values),
but the loop still pushes a sample for the play, carrying its team id. -/
theorem c5_skip_amended (home away : String) (n i : ℕ) (cur : ℚ) (p : PlayEvent)
    (rest : List PlayEvent) (t : String)
    (hw : p.wallclock.isSome = true) (ht : p.team = some t)
    (hth : t ≠ home) (hta : t ≠ away) :
    momentumFold home away n (p :: rest) i cur
      = mkSample p i (clamp cur) (calculatePlayImpact p)
          :: momentumFold home away n rest (i + 1) (clamp cur)
    ∧ (mkSample p i (clamp cur) (calculatePlayImpact p)).teamId = t
    ∧ (-100 ≤ cur → cur ≤ 100 → clamp cur = cur) := by
  have hv : (p.wallclock.isSome && p.team.isSome) = true := by
    rw [hw, ht]
    rfl
  have hnh : ¬ p.team = some home := by
    rw [ht]
    exact fun hcon => hth (Option.some_injective _ hcon)
  have hna : ¬ p.team = some away := by
    rw [ht]
    exact fun hcon => hta (Option.some_injective _ hcon)
  refine ⟨?_, ?_, ?_⟩
  · simp only [momentumFold, hv, if_pos, if_neg hnh, if_neg hna]
  · simp [mkSample, ht]
  · intro h1 h2
    unfold clamp
    rw [min_eq_right h2, max_eq_right h1]

/-- C5 witness: the amended statement instantiated on the concrete play. -/
theorem c5_skip_amended_witness :
    momentumFold "H" "A" 1 [c5play] 0 0
      = mkSample c5play 0 (clamp 0) (calculatePlayImpact c5play)
          :: momentumFold "H" "A" 1 [] 1 (clamp 0)
    ∧ (mkSample c5play 0 (clamp 0) (calculatePlayImpact c5play)).teamId = "X"
    ∧ (-100 ≤ (0 : ℚ) → (0 : ℚ) ≤ 100 → clamp 0 = 0) :=
  c5_skip_amended "H" "A" 1 0 0 c5play [] "X" (by decide) (by decide)
    (by decide) (by decide)

theorem rescalePass_length (h : List MomentumSample) :
    (rescalePass h).length = h.length := by
  unfold rescalePass
  split_ifs <;> simp

theorem momentumFold_length (home away : String) (n : ℕ) :
    ∀ (l : List PlayEvent) (i : ℕ) (cur : ℚ),
      (momentumFold home away n l i cur).length
        = l.countP (fun p => p.wallclock.isSome && p.team.isSome) := by
  intro l
  induction l with
  | nil =>
    intro i cur
    simp [momentumFold]
  | cons p rest ih =>
    intro i cur
    by_cases hv : (p.wallclock.isSome && p.team.isSome) = true
    · simp [momentumFold, hv, List.countP_cons, ih]
    · simp [momentumFold, hv, List.countP_cons, ih]

/-- C6: `calculateMomentumSeries` returns the empty trace on an empty play
list, and in general emits exactly one sample per event that has both a
wallclock and a team id — events missing either are dropped, not zero-filled. -/
theorem c6_trace_length (plays : List PlayEvent) (home away : String) :
    calculateMomentumSeries [] home away = []
    ∧ (calculateMomentumSeries plays home away).length
        = (plays.filter (fun p => p.wallclock.isSome && p.team.isSome)).length := by
  refine ⟨rfl, ?_⟩
  unfold calculateMomentumSeries
  split
  · next hemp =>
    rw [List.isEmpty_iff] at hemp
    subst hemp
    simp
  · rw [rescalePass_length, momentumFold_length]
    unfold sortPlays
    rw [(List.perm_insertionSort _ plays).countP_eq, List.countP_eq_length_filter]

theorem sortedKeyLt {l : List PlayEvent}
    (hs : l.Sorted (fun a b => playKey a ≤ playKey b))
    (hnd : (l.map playKey).Nodup) :
    l.Sorted (fun a b => playKey a < playKey b) := by
  have hne : l.Pairwise (fun a b => playKey a ≠ playKey b) := List.pairwise_map.mp hnd
  exact (hs.and hne).imp (fun h => lt_of_le_of_ne h.1 h.2)

theorem sortPlays_eq_of_perm {l1 l2 : List PlayEvent} (hperm : l1.Perm l2)
    (hnd : (l1.map playKey).Nodup) : sortPlays l1 = sortPlays l2 := by
  haveI i1 : IsTotal PlayEvent (fun a b => playKey a ≤ playKey b) :=
    ⟨fun a b => le_total _ _⟩
  haveI i2 : IsTrans PlayEvent (fun a b => playKey a ≤ playKey b) :=
    ⟨fun a b c hab hbc => le_trans hab hbc⟩
  haveI i3 : IsAntisymm PlayEvent (fun a b => playKey a < playKey b) :=
    ⟨fun a b h1 h2 => absurd (lt_trans h1 h2) (lt_irrefl _)⟩
  have p1 : (sortPlays l1).Perm l1 := List.perm_insertionSort _ _
  have p2 : (sortPlays l2).Perm l2 := List.perm_insertionSort _ _
  have pp : (sortPlays l1).Perm (sortPlays l2) := p1.trans (hperm.trans p2.symm)
  have hnd1 : ((sortPlays l1).map playKey).Nodup := ((p1.map playKey).nodup_iff).mpr hnd
  have hnd2 : ((sortPlays l2).map playKey).Nodup :=
    ((p2.map playKey).nodup_iff).mpr (((hperm.map playKey).nodup_iff).mp hnd)
  exact List.eq_of_perm_of_sorted pp
    (sortedKeyLt (List.sorted_insertionSort _ _) hnd1)
    (sortedKeyLt (List.sorted_insertionSort _ _) hnd2)

/-- C7: on play lists that are permutations of each other, with every play
carrying a wallclock and all wallclocks pairwise distinct, the series is
identical — the core always re-sorts by timestamp and recomputes in full. -/
theorem c7_permutation_invariance (plays1 plays2 : List PlayEvent) (home away : String)
    (hperm : plays1.Perm plays2)
    (hwc : ∀ p ∈ plays1, p.wallclock.isSome)
    (hnd : (plays1.map playKey).Nodup) :
    calculateMomentumSeries plays1 home away = calculateMomentumSeries plays2 home away := by
  have hsort := sortPlays_eq_of_perm hperm hnd
  unfold calculateMomentumSeries
  by_cases h1 : plays1.isEmpty
  · have h2 : plays2.isEmpty = true := by
      rw [List.isEmpty_iff] at h1 ⊢
      subst h1
      exact hperm.symm.eq_nil
    rw [if_pos h1, if_pos h2]
  · have h2 : ¬ plays2.isEmpty = true := by
      rw [List.isEmpty_iff] at h1 ⊢
      intro hcon
      subst hcon
      exact h1 hperm.eq_nil
    rw [if_neg h1, if_neg h2, hsort]

/-- A home dunk at wallclock 1000. -/
def c7a : PlayEvent :=
  { text := some "dunk", type := some (some ""), wallclock := some 1000, team := some "H" }

/-- An away steal at wallclock 2000. -/
def c7b : PlayEvent :=
  { text := some "steal", type := some (some ""), wallclock := some 2000, team := some "A" }

/-- C7 witness: the two orderings of the same two-play game give the same trace. -/
theorem c7_permutation_invariance_witness :
    calculateMomentumSeries [c7a, c7b] "H" "A" = calculateMomentumSeries [c7b, c7a] "H" "A" :=
  c7_permutation_invariance [c7a, c7b] [c7b, c7a] "H" "A" (by decide) (by decide) (by decide)

/-- Team metadata from `narrativeEngine.ts`. -/
structure TeamInfo where
  id : String := ""
  name : String := ""
  abbreviation : String := ""
  score : String := ""
  deriving DecidableEq, Repr

/-- `getQuarterLabel` from `narrativeEngine.ts`. -/
def getQuarterLabel (period : ℤ) : String :=
  if period ≤ 4 then "Q" ++ toString period else "OT" ++ toString (period - 4)

/-- `getTeamForPlay` from `narrativeEngine.ts`. -/
def getTeamForPlay (play : MomentumSample) (homeTeam awayTeam : Option TeamInfo) : String :=
  match homeTeam, awayTeam with
  | some h, some a => if play.teamId = h.id then h.name else a.name
  | _, _ => "A team"

/-- `p.rawImpact > 2 && team && p.teamId === team.id` from the scoring-run
filters (the team object must be truthy for the comparison to happen). -/
def teamMatch (t : Option TeamInfo) (p : MomentumSample) : Bool :=
  match t with
  | some tm => p.teamId == tm.id
  | none => false

/-- The per-team count of `detectScoringRuns`: over the last 10 samples
(`data.slice(-10)`), the plays with `rawImpact > 2` attributed to the team. -/
def scoringCount (data : List MomentumSample) (team : Option TeamInfo) : ℕ :=
  ((data.drop (data.length - 10)).filter
    (fun p => decide (2 < p.rawImpact) && teamMatch team p)).length

/-- `detectScoringRuns` from `narrativeEngine.ts`.  (The consecutive-run
counters of its first loop are computed but never read by the return value,
so they are omitted.) -/
def detectScoringRuns (data : List MomentumSample) (homeTeam awayTeam : Option TeamInfo) :
    Option String :=
  if data.length < 8 then none
  else
    let homeScoringPlays := scoringCount data homeTeam
    let awayScoringPlays := scoringCount data awayTeam
    if 4 ≤ homeScoringPlays ∧ awayScoringPlays * 2 < homeScoringPlays then
      some (jsOr (homeTeam.map (fun t => t.name)) "The home team"
        ++ " is on a scoring run, converting " ++ toString homeScoringPlays
        ++ " of the last 10 possessions into baskets.")
    else if 4 ≤ awayScoringPlays ∧ homeScoringPlays * 2 < awayScoringPlays then
      some (jsOr (awayTeam.map (fun t => t.name)) "The away team"
        ++ " is on a scoring run, converting " ++ toString awayScoringPlays
        ++ " of the last 10 possessions into baskets.")
    else none

/-- The argument record of `generateTimeWindowNarrative`.  The source
destructures `fullData`, `start` and `end` but never uses them
(`start`/`end` are renamed here because `end` is a Lean keyword). -/
structure TimeWindowInput where
  momentumData : List MomentumSample
  fullData : List MomentumSample := []
  homeTeam : Option TeamInfo := none
  awayTeam : Option TeamInfo := none
  windowStart : ℤ := 0
  windowEnd : ℤ := 0
  deriving Repr

/-- The `timeRange` string of `generateTimeWindowNarrative`. -/
def timeRangeLabel (firstS lastS : MomentumSample) : String :=
  let startTime := jsOrS firstS.clock "N/A"
  let endTime := jsOrS lastS.clock "N/A"
  let startQ := getQuarterLabel firstS.period
  let endQ := getQuarterLabel lastS.period
  if startQ = endQ then startTime ++ " to " ++ endTime ++ " in " ++ startQ
  else startQ ++ " " ++ startTime ++ " to " ++ endQ ++ " " ++ endTime

/-- The momentum-change sentence of `generateTimeWindowNarrative`: exactly one
of its three branches fires (`|Δ| > 20`, `|Δ| > 8`, or the even-stretch
fallback). -/
def mcSentence (home away : Option TeamInfo) (firstS lastS : MomentumSample) : String :=
  let change := lastS.momentum - firstS.momentum
  let absChange := |change|
  if 20 < absChange then
    "During " ++ timeRangeLabel firstS lastS ++ ", "
      ++ jsOr ((if 0 < change then home else away).map (fun t => t.name)) "one team"
      ++ " generated a major momentum swing of " ++ toString (round absChange) ++ " points."
  else if 8 < absChange then
    "From " ++ timeRangeLabel firstS lastS ++ ": "
      ++ jsOr ((if 0 < change then home else away).map (fun t => t.name)) "one team"
      ++ " gained a moderate momentum edge."
  else
    "From " ++ timeRangeLabel firstS lastS
      ++ ": a relatively even stretch with neither team gaining a clear momentum advantage."

/-- The per-play label of the key-moments sentence. -/
def keyMomentLabel (home away : Option TeamInfo) (play : MomentumSample) : String :=
  let text := lowerChars play.text
  let team := getTeamForPlay play home away
  if strIncludes text "block".data then team ++ " block"
  else if strIncludes text "steal".data then team ++ " steal"
  else if strIncludes text "dunk".data then team ++ " dunk"
  else if strIncludes text "three".data || strIncludes text "3pt".data then team ++ " three"
  else team ++ " big play"

/-- The list of absolute consecutive momentum deltas. -/
def deltasAbs : List ℚ → List ℚ
  | a :: b :: rest => |b - a| :: deltasAbs (b :: rest)
  | _ => []

/-- `changes.length > 0 ? changes.reduce((s,v) => s+v, 0) / changes.length : 0`. -/
def avgAbsChange (momentums : List ℚ) : ℚ :=
  let changes := deltasAbs momentums
  if changes.length = 0 then 0 else changes.sum / (changes.length : ℚ)

/-- The `sentences` array built by `generateTimeWindowNarrative` for a window
of at least one sample: the momentum-change sentence is pushed
unconditionally, then the optional scoring, key-moments and volatility
sentences.  (The local `avgMomentum` of the source is computed but never
used, so it is omitted.) -/
def twSentences (home away : Option TeamInfo) (md : List MomentumSample) : List String :=
  match md with
  | [] => []
  | p0 :: tl =>
    let firstS := p0
    let lastS := (p0 :: tl).getLastD p0
    let homeScored := lastS.homeScore - firstS.homeScore
    let awayScored := lastS.awayScore - firstS.awayScore
    let scoreS : List String :=
      if 0 < homeScored ∨ 0 < awayScored then
        ["Scoring: " ++ jsOr (home.map (fun t => t.name)) "Home" ++ " " ++ toString homeScored
          ++ " - " ++ jsOr (away.map (fun t => t.name)) "Away" ++ " " ++ toString awayScored
          ++ " during this stretch."]
      else []
    let highImpact := (p0 :: tl).filter (fun p => decide (6 ≤ |p.rawImpact|))
    let keyS : List String :=
      if highImpact.isEmpty then []
      else ["Key moments: "
        ++ joinWith ", " ((highImpact.take 3).map (keyMomentLabel home away)) ++ "."]
    let avgChange := avgAbsChange ((p0 :: tl).map (fun p => p.momentum))
    let volS : List String :=
      if 15 < avgChange then ["This was a volatile stretch with rapid momentum swings."]
      else if avgChange < 3 ∧ 5 < (p0 :: tl).length then
        ["Momentum was stable during this stretch — a controlled phase of play."]
      else []
    mcSentence home away firstS lastS :: (scoreS ++ keyS ++ volS)

/-- The guard message of `generateTimeWindowNarrative`. -/
def twFixedMessage : String := "Not enough data in the selected time window for analysis."

/-- `generateTimeWindowNarrative` from `narrativeEngine.ts`: guard for fewer
than 3 samples, otherwise the joined sentence list. -/
def generateTimeWindowNarrative (input : TimeWindowInput) : String :=
  match input.momentumData with
  | p0 :: p1 :: p2 :: rest =>
    joinWith " " (twSentences input.homeTeam input.awayTeam (p0 :: p1 :: p2 :: rest))
  | _ => twFixedMessage

/-- The first sentence the non-guard path of `generateTimeWindowNarrative`
produces: the momentum-change sentence over the window ends. -/
def twFirstSentence (input : TimeWindowInput) : String :=
  match input.momentumData with
  | [] => ""
  | p0 :: tl => mcSentence input.homeTeam input.awayTeam p0 ((p0 :: tl).getLastD p0)

/-- Seven home scoring samples: the run condition holds but the detector is
silent because of its `data.length < 8` guard. -/
def c8data7 : List MomentumSample :=
  List.replicate 7 { teamId := "h1", rawImpact := 3 }

/-- Home side for the scoring-run examples. -/
def c8home : TeamInfo := { id := "h1", name := "Home" }

/-- Away side for the scoring-run examples. -/
def c8away : TeamInfo := { id := "a1", name := "Away" }

/-- C8 counterexample: on a 7-sample trace one team has 7 ≥ 4 qualifying plays
against 0, yet `detectScoringRuns` emits nothing — the claim's "if and only
if" fails for traces shorter than 8 samples. -/
theorem c8_runs_counterexample :
    detectScoringRuns c8data7 (some c8home) (some c8away) = none
    ∧ 4 ≤ scoringCount c8data7 (some c8home)
    ∧ scoringCount c8data7 (some c8away) * 2 < scoringCount c8data7 (some c8home) := by
  decide

/-- C8 (amended): for traces of at least 8 samples, `detectScoringRuns` emits
a sentence exactly when, over the last 10 samples, one team's count of plays
with `rawImpact > 2` is at least 4 and strictly more than double the
opponent's count. -/
theorem c8_runs_amended (data : List MomentumSample) (homeTeam awayTeam : Option TeamInfo)
    (hlen : 8 ≤ data.length) :
    (detectScoringRuns data homeTeam awayTeam).isSome = true
      ↔ ((4 ≤ scoringCount data homeTeam
            ∧ scoringCount data awayTeam * 2 < scoringCount data homeTeam)
        ∨ (4 ≤ scoringCount data awayTeam
            ∧ scoringCount data homeTeam * 2 < scoringCount data awayTeam)) := by
  simp only [detectScoringRuns]
  rw [if_neg (by omega)]
  split_ifs with h1 h2
  · simp only [Option.isSome_some, true_iff]
    exact Or.inl h1
  · simp only [Option.isSome_some, true_iff]
    exact Or.inr h2
  · simp only [Option.isSome_none, Bool.false_eq_true, false_iff]
    rintro (h | h)
    · exact h1 h
    · exact h2 h

/-- Eight samples, four qualifying home plays against none. -/
def c8data8 : List MomentumSample :=
  List.replicate 4 { teamId := "h1", rawImpact := 3 }
    ++ List.replicate 4 { teamId := "a1", rawImpact := 0 }

/-- C8 witness: on an 8-sample trace with four qualifying home plays and none
for the away side, the detector emits a sentence. -/
theorem c8_runs_amended_witness :
    (detectScoringRuns c8data8 (some c8home) (some c8away)).isSome = true :=
  (c8_runs_amended c8data8 (some c8home) (some c8away) (by decide)).mpr
    (Or.inl ⟨by decide, by decide⟩)

theorem joinWith_cons (sep s : String) (l : List String) :
    joinWith sep (s :: l) = s ++ joinWithTail sep l := rfl

theorem twSentences_cons (home away : Option TeamInfo) (p0 : MomentumSample)
    (tl : List MomentumSample) :
    ∃ restL : List String,
      twSentences home away (p0 :: tl)
        = mcSentence home away p0 ((p0 :: tl).getLastD p0) :: restL :=
  ⟨_, rfl⟩

theorem mcSentence_length_pos (home away : Option TeamInfo) (f l : MomentumSample) :
    0 < (mcSentence home away f l).length := by
  have h7 : ("During " : String).length = 7 := by decide
  have h5 : ("From " : String).length = 5 := by decide
  simp only [mcSentence]
  split_ifs <;> simp only [String.length_append, h7, h5] <;> omega

/-- C10: `generateTimeWindowNarrative` is total — a window of fewer than 3
samples gets the fixed not-enough-data message, and any window of at least 3
samples yields a non-empty narrative that begins with the momentum-change
sentence (one of whose three branches always fires). -/
theorem c10_window_narrative (input : TimeWindowInput) :
    (input.momentumData.length < 3 →
      generateTimeWindowNarrative input = twFixedMessage)
    ∧ (3 ≤ input.momentumData.length →
        generateTimeWindowNarrative input ≠ ""
        ∧ ∃ rest : String,
            generateTimeWindowNarrative input = twFirstSentence input ++ rest) := by
  rcases input with ⟨md, fd, ht, aw, ws, we⟩
  rcases md with _ | ⟨p0, _ | ⟨p1, _ | ⟨p2, tl⟩⟩⟩
  · exact ⟨fun _ => rfl, fun h3 => by simp at h3⟩
  · exact ⟨fun _ => rfl, fun h3 => by simp at h3⟩
  · exact ⟨fun _ => rfl, fun h3 => by simp at h3⟩
  · refine ⟨fun hlt => ?_, fun _ => ?_⟩
    · simp at hlt
      omega
    · obtain ⟨restL, hrest⟩ := twSentences_cons ht aw p0 (p1 :: p2 :: tl)
      have heq : generateTimeWindowNarrative
            ⟨p0 :: p1 :: p2 :: tl, fd, ht, aw, ws, we⟩
          = twFirstSentence ⟨p0 :: p1 :: p2 :: tl, fd, ht, aw, ws, we⟩
              ++ joinWithTail " " restL := by
        show joinWith " " (twSentences ht aw (p0 :: p1 :: p2 :: tl)) = _
        rw [hrest, joinWith_cons]
        rfl
      refine ⟨?_, joinWithTail " " restL, heq⟩
      rw [heq]
      intro hcon
      have hlen := congrArg String.length hcon
      rw [String.length_append] at hlen
      have hpos := mcSentence_length_pos ht aw p0 ((p0 :: p1 :: p2 :: tl).getLastD p0)
      simp only [twFirstSentence] at hlen
      rw [show ("" : String).length = 0 from rfl] at hlen
      omega

/-- An empty selected window. -/
def c10short : TimeWindowInput := { momentumData := [] }

/-- A three-sample selected window (all fields default). -/
def c10long : TimeWindowInput := { momentumData := [{}, {}, {}] }

/-- C10 witness: the guard message on an empty window, and a non-empty
narrative on a three-sample window. -/
theorem c10_window_narrative_witness :
    generateTimeWindowNarrative c10short = twFixedMessage
    ∧ generateTimeWindowNarrative c10long ≠ "" :=
  ⟨(c10_window_narrative c10short).1 (by decide),
   ((c10_window_narrative c10long).2 (by decide)).1⟩
